import Mathlib

/-!
Verification development for gene1wood/federated-aws-rp,
a shallow embedding of src/functions/federated_aws_rp/app.py.

The repository ships only app.py; its helper modules (.utils, .config) are
not part of the source tree here.  Helpers whose internal behaviour decides
a claim are modelled from the spec (each such definition carries a doc
comment starting with "Modelled from the spec:"); the remaining helpers are
kept abstract as fields of an environment record `Env`, so theorems
quantify over every possible behaviour of the missing code.

Python machine-level details embedded explicitly:
  - dict values with optional keys become structures with Option fields;
  - exceptions become `Except` values: an `Except.error` escaping a
    function models a raised exception, and the catch-all
    `except Exception` at the bottom of lambda_handler maps any such
    error to the fixed 500 response;
  - `base64.b64decode` / `base64.urlsafe_b64encode` / `urlencode` /
    `str.lower` / `int(...)` are implemented over `List Nat` byte lists
    and `String`, matching the CPython semantics that the claims touch
    (ASCII inputs; bytes are `Nat` taken mod 256).
-/

/-- Python exception classes that the handler distinguishes.
`accessDenied` is the application's own `AccessDenied` class from utils;
the others are stdlib exceptions raised by the code paths embedded here. -/
inductive PyExc where
  | accessDenied
  | keyError
  | typeError
  | binasciiError
  | jsonDecodeError
  | valueError
deriving Repr, DecidableEq

/-- The `client_workflow_value` payloads that app.py stores: either a
message dict or an AWS federation URL dict. -/
inductive WV where
  | message (s : String)
  | federationUrl (s : String)
deriving Repr, DecidableEq

/-- JSON payloads returned in response bodies (the `data` argument of
utils.return_api_gateway_json). -/
inductive RData where
  | stateValue (state : Option String) (value : Option WV)
  | roles (r : String)
  | result (s : String)
deriving Repr, DecidableEq

/-- The cookie store: the session record carried entirely in the user's
cookie (spec section 3, SessionRecord).  app.py uses a Python dict with
these keys; optional presence is an `Option`.  A key set to Python `None`
and an absent key are both `none` except where presence matters to the
code: `role_arn` (membership test at app.py line 113), `id_token`
(`store[...]` lookup at line 328) and `cache` (`store.get` with a default
at lines 115 and 328) - all three are faithfully `Option` fields here. -/
structure Store where
  action : Option String := none
  oidc_state : Option String := none
  code_verifier : Option String := none
  session_duration : Option Int := none
  cache : Option Bool := none
  client_workflow_state : Option String := none
  client_workflow_value : Option WV := none
  destination_url : Option String := none
  role_arn : Option String := none
  role_name : Option String := none
  role_account_alias : Option String := none
  id_token : Option String := none
deriving Repr, DecidableEq

/-- The decoded form of an absent or integrity-failed cookie: per the spec
(section 4.1) utils.get_store yields an empty session in that case. -/
def emptyStore : Store := {}

/-- `store.get('cache', True)` as used at app.py lines 115 and 328. -/
def Store.cacheOrTrue (s : Store) : Bool := s.cache.getD true

/-- `store['client_workflow_state'] = st; store['client_workflow_value'] = v`,
the two-assignment pattern used throughout app.py. -/
def setWF (s : Store) (st : String) (v : WV) : Store :=
  { s with client_workflow_state := some st, client_workflow_value := some v }

/-- An AWS API Gateway proxy-mode response as app.py builds them.  The
`Set-Cookie` header content is kept as the decoded record (`cookieStore`);
`none` means the response sets no cookie, so the session record held by
the client is left untouched. -/
structure ApiResponse where
  statusCode : Nat
  cookieStore : Option Store := none
  location : Option String := none
  textBody : Option String := none
  jsonData : Option RData := none
deriving Repr, DecidableEq

/-- The fixed 500 response produced by the `except Exception` handler at
app.py lines 393-399. -/
def resp500 : ApiResponse :=
  { statusCode := 500, textBody := some "Error" }

/-- The 403 response for invalid POST data at app.py lines 336-339. -/
def resp403 : ApiResponse :=
  { statusCode := 403, textBody := some "Invalid POST data" }

/-- The parsed JSON request body (a Python dict); app.py reads exactly
these keys from it.  The `error` key doubles as the identity provider's
error parameter on the callback path and as the parse-failure marker
inserted at app.py lines 280-283. -/
structure PBody where
  error : Option String := none
  arn : Option String := none
  roleAlias : Option String := none
  role : Option String := none
  state : Option String := none
  code : Option String := none
  error_description : Option String := none
deriving Repr, DecidableEq

/-- The parse-failure record assigned to parsed_body at app.py
lines 280-283 (only its `error` key is ever read again). -/
def errorRecord : PBody := { error := some "Unable to parse POST data" }

/-- CONFIG values read by app.py (config.py is not in the source tree;
these are opaque configuration strings). -/
structure Config where
  oidc_scope : String
  redirect_uri : String
  client_id : String
  cookie_name : String
  default_session_duration : Int
deriving Repr, DecidableEq

/-- The scheme/netloc/path components of the identity provider's
authorization endpoint, i.e. urllib.parse.urlparse of
discovery_document['authorization_endpoint'] (params/query/fragment
empty, as for a plain endpoint URL). -/
structure UrlParts where
  scheme : String
  netloc : String
  path : String
deriving Repr, DecidableEq

/-- An API Gateway event, restricted to the fields app.py reads.
`body = none` is a Python `None` body (as API Gateway sends for GET
requests); an event lacking the key behaves as the empty string per
`event.get('body', '')` at line 277 and is modelled as `some ""`. -/
structure Event where
  path : Option String := none
  httpMethod : Option String := none
  cookieHeader : String := ""
  referer : String := ""
  queryStringParameters : List (String × String) := []
  body : Option String := none
deriving Repr, DecidableEq

/-- dict.get on the query-string parameter list. -/
def qget (q : List (String × String)) (k : String) : Option String :=
  match q with
  | [] => none
  | (k2, v) :: rest => if k2 = k then some v else qget rest k

-- ---------------------------------------------------------------------
-- Python stdlib primitives used by app.py, embedded over List Nat/String
-- ---------------------------------------------------------------------

/-- The urlsafe base64 alphabet used by base64.urlsafe_b64encode. -/
def b64urlAlphabet : List Char :=
  "ABCDEFGHIJKLMNOPQRSTUVWXYZabcdefghijklmnopqrstuvwxyz0123456789-_".data

/-- The standard base64 alphabet used by base64.b64decode. -/
def b64stdAlphabet : List Char :=
  "ABCDEFGHIJKLMNOPQRSTUVWXYZabcdefghijklmnopqrstuvwxyz0123456789+/".data

def b64urlChar (n : Nat) : Char := b64urlAlphabet.getD n 'A'

/-- Encode bytes to urlsafe base64 characters, already without the
trailing '=' padding (the final partial group emits 2 or 3 characters). -/
def b64EncodeGroups : List Nat → List Char
  | a :: b :: c :: rest =>
    let n := (a % 256) * 65536 + (b % 256) * 256 + (c % 256)
    b64urlChar (n / 262144) :: b64urlChar ((n / 4096) % 64) ::
      b64urlChar ((n / 64) % 64) :: b64urlChar (n % 64) :: b64EncodeGroups rest
  | [a, b] =>
    let n := (a % 256) * 65536 + (b % 256) * 256
    [b64urlChar (n / 262144), b64urlChar ((n / 4096) % 64), b64urlChar ((n / 64) % 64)]
  | [a] =>
    let n := (a % 256) * 65536
    [b64urlChar (n / 262144), b64urlChar ((n / 4096) % 64)]
  | [] => []

/-- Modelled from the spec: utils.base64_without_padding, the
"base64url-encoded without padding" primitive of spec section 4.2
(`base64.urlsafe_b64encode(data).decode().rstrip('=')`). -/
def base64_without_padding (bs : List Nat) : String :=
  ⟨b64EncodeGroups bs⟩

/-- Position of a character in the standard base64 alphabet. -/
def b64stdIndex (c : Char) : Option Nat :=
  b64stdAlphabet.indexOf? c

/-- Decode base64 sextets to bytes (groups of 4 sextets give 3 bytes; a
final group of 3 gives 2 bytes, of 2 gives 1 byte). -/
def b64DecodeGroups : List Nat → List Nat
  | a :: b :: c :: d :: rest =>
    let n := a * 262144 + b * 4096 + c * 64 + d
    n / 65536 :: (n / 256) % 256 :: n % 256 :: b64DecodeGroups rest
  | [a, b, c] =>
    let n := a * 262144 + b * 4096 + c * 64
    [n / 65536, (n / 256) % 256]
  | [a, b] =>
    let n := a * 262144 + b * 4096
    [n / 65536]
  | [_] => []
  | [] => []

/-- base64.b64decode as called at app.py line 277: with validate=False it
discards characters outside the standard alphabet, raises
binascii.Error when the remaining data-character count is 1 mod 4 or the
total including '=' padding is not a multiple of 4, raises TypeError on a
`None` argument, and otherwise decodes. -/
def pyB64decode (body : Option String) : Except PyExc (List Nat) :=
  match body with
  | none => .error .typeError
  | some s =>
    let ds := s.data.filterMap b64stdIndex
    let pads := (s.data.filter (fun c => c = '=')).length
    if ds.length % 4 = 1 then .error .binasciiError
    else if (ds.length + pads) % 4 ≠ 0 then .error .binasciiError
    else .ok (b64DecodeGroups ds)

/-- ASCII str.lower, as applied to the `cache` query parameter at
app.py line 302. -/
def pyLowerChar (c : Char) : Char :=
  if 'A' ≤ c ∧ c ≤ 'Z' then Char.ofNat (c.toNat + 32) else c

def pyLower (s : String) : String :=
  ⟨s.data.map pyLowerChar⟩

/-- Characters urllib.parse.quote_plus never escapes (letters, digits and
"_.-~"). -/
def urlSafeChar (c : Char) : Bool :=
  c.isAlphanum || c = '_' || c = '.' || c = '-' || c = '~'

def hexDigit (n : Nat) : Char := "0123456789ABCDEF".data.getD n '0'

/-- urllib.parse.quote_plus on one ASCII character: safe characters pass
through, space becomes '+', anything else is percent-encoded. -/
def quotePlusChar (c : Char) : List Char :=
  if urlSafeChar c then [c]
  else if c = ' ' then ['+']
  else ['%', hexDigit (c.toNat % 256 / 16), hexDigit (c.toNat % 16)]

def quotePlus (s : String) : String :=
  ⟨s.data.flatMap quotePlusChar⟩

/-- urllib.parse.urlencode as used at app.py line 231: ampersand-joined
key=value pairs, each quoted with quote_plus, in dict insertion order. -/
def urlencode (ps : List (String × String)) : String :=
  String.intercalate "&" (ps.map (fun p => quotePlus p.1 ++ "=" ++ quotePlus p.2))

/-- urllib.parse.urlunparse of the authorization endpoint with its query
component replaced (app.py lines 228-232). -/
def urlunparse (u : UrlParts) (query : String) : String :=
  u.scheme ++ "://" ++ u.netloc ++ u.path ++ (if query = "" then "" else "?" ++ query)

def digitsToNat (ds : List Char) : Nat :=
  ds.foldl (fun acc c => acc * 10 + (c.toNat - '0'.toNat)) 0

/-- Python int(str) on the session_duration query parameter (app.py
line 297): optional surrounding whitespace, optional sign, decimal
digits; anything else raises ValueError. -/
def pyInt (s : String) : Except PyExc Int :=
  let t := s.trim
  match t.data with
  | '-' :: ds =>
    if ds ≠ [] ∧ ds.all Char.isDigit then .ok (-(digitsToNat ds : Int)) else .error .valueError
  | '+' :: ds =>
    if ds ≠ [] ∧ ds.all Char.isDigit then .ok (digitsToNat ds : Int) else .error .valueError
  | ds =>
    if ds ≠ [] ∧ ds.all Char.isDigit then .ok (digitsToNat ds : Int) else .error .valueError

/-- The bytes of an ASCII string, i.e. Python str.encode() for the
base64 alphabet strings this code feeds to hashlib (app.py line 201). -/
def strBytes (s : String) : List Nat :=
  s.data.map Char.toNat

-- ---------------------------------------------------------------------
-- The environment: helpers from the missing .utils/.config modules and
-- the external world (randomness, hashing, network calls)
-- ---------------------------------------------------------------------

/-- The missing collaborators of app.py, kept abstract so the theorems
quantify over their behaviour.  Fallible helpers return
`Except Unit`: the spec (sections 4.4, 4.5, 4.7 and 7) makes their
failure mode the application's `AccessDenied` exception, which is the
`.error ()` case; transient network failures are outside this embedding.

  - `sha256` - hashlib.sha256(...).digest() (app.py line 200);
  - `urandom1`, `urandom2` - the bytes of the two os.urandom(32) calls
    (lines 199 and 204), in call order;
  - `jsonLoads` - json.loads on the decoded body bytes (line 278), its
    error case covering json.JSONDecodeError;
  - `exchange` - the identity provider token-endpoint exchange plus ID
    token validation performed inside utils.login after its own
    error/state/code checks, given the code and the session's
    code_verifier (spec section 4.4);
  - `convertAccountAlias` - utils.convert_account_alias (line 114);
  - `fedCore` - utils.get_aws_federation_url after its token check,
    see `getAwsFederationUrl` below;
  - `triggerRebuild` - utils.trigger_group_role_map_rebuild (line 130);
  - `getRoles` - utils.get_roles (line 328);
  - `getRoleArn` - utils.get_role_arn on the query parameters (line 289);
  - `getDestinationUrl` - utils.get_destination_url on the Referer
    header (line 287);
  - `getStore` - utils.get_store: decodes and verifies the session
    cookie, yielding `emptyStore` when the cookie is absent or fails its
    authenticity check (spec section 4.1);
  - `emailOf` - utils.get_email_or_username applied to a present ID
    token (lines 119, 140 and 349), see `get_email_or_username` below;
  - `emailOnNone` - utils.get_email_or_username applied to a `None`
    token (reachable only at line 349, where the token is read with
    store.get): the spec does not specify this case, so it is kept
    fully abstract - it may return a string or raise any exception;
  - `readResource` - utils.read_resource (lines 310 and 367);
  - `config`, `authEndpoint` - CONFIG and the parsed
    authorization_endpoint of the discovery document. -/
structure Env where
  sha256 : List Nat → List Nat
  urandom1 : List Nat
  urandom2 : List Nat
  jsonLoads : List Nat → Except Unit PBody
  exchange : String → Option String → Except Unit String
  convertAccountAlias : String → String → Bool → Except Unit String
  fedCore : String → Store → Except Unit String
  triggerRebuild : String → Except Unit Unit
  getRoles : String → Bool → Except Unit RData
  getRoleArn : List (String × String) → Option String
  getDestinationUrl : String → String
  getStore : String → Store
  emailOf : String → String
  emailOnNone : Except PyExc String
  readResource : Option String → Option String
  config : Config
  authEndpoint : UrlParts

-- ---------------------------------------------------------------------
-- Spec-modelled utils functions whose internals decide claims
-- ---------------------------------------------------------------------

/-- Modelled from the spec: utils.login, the TokenExchanger of spec
section 4.4 (utils.py is not in the source tree).  It fails with
AccessDenied if the identity provider returned an error parameter, or if
the returned state does not exactly match the session's oidc_state, or
if the code is absent; otherwise it performs the token-endpoint exchange
and ID-token validation (`env.exchange`), whose own failures are also
AccessDenied. -/
def loginFn (env : Env) (state code error errorDescription : Option String)
    (store : Store) : Except Unit String :=
  if error.isSome then .error ()
  else if state ≠ store.oidc_state then .error ()
  else
    match code with
    | none => .error ()
    | some c => env.exchange c store.code_verifier

/-- Modelled from the spec: utils.get_aws_federation_url (utils.py is not
in the source tree).  Per spec sections 4.4 and 7 it validates the
session's ID token before issuing a federation URL, and any validation
failure - in particular an absent token - is AccessDenied; the remaining
behaviour (role assumption and sign-in token retrieval) is the abstract
`env.fedCore`. -/
def getAwsFederationUrl (env : Env) (store : Store) : Except Unit String :=
  match store.id_token with
  | none => .error ()
  | some tok => env.fedCore tok store

/-- Modelled from the spec: utils.return_api_gateway_json (utils.py is
not in the source tree).  Per spec section 6 it wraps a JSON payload in a
200 response, re-encoding the store into the Set-Cookie header when one
is given and setting no cookie when it is `None` - as in get_state. -/
def returnApiGatewayJson (store : Option Store) (data : Option RData) : ApiResponse :=
  { statusCode := 200, cookieStore := store, jsonData := data }

/-- Modelled from the spec: utils.get_email_or_username (utils.py is not
in the source tree), the identity-claims reader used only inside
logger.info calls at app.py lines 119, 140 and 349.  Per spec section
4.4 downstream consumers read claims from the exchanged token on demand,
so on a present token it yields the identity (`env.emailOf`; every
present token reaching it in the proved theorems came from login's
validation).  On a `None` token - reachable only via store.get at line
349 when the session is empty - the spec says nothing, so the outcome is
the fully abstract `env.emailOnNone`: a returned string, or any raised
exception, which the caller does not catch. -/
def get_email_or_username (env : Env) (tok : Option String) : Except PyExc String :=
  match tok with
  | some t => .ok (env.emailOf t)
  | none => env.emailOnNone

-- ---------------------------------------------------------------------
-- app.py, embedded
-- ---------------------------------------------------------------------

/-- app.py lines 45-67, pick_role: exchange the store's role_arn for an
AWS federation URL.  Only AccessDenied is caught; success stores
aws_federate with the URL, failure stores the fixed error record. -/
def pick_role (env : Env) (store : Store) : ApiResponse :=
  match getAwsFederationUrl env store with
  | .ok url =>
    returnApiGatewayJson
      (some (setWF store "aws_federate" (.federationUrl url))) none
  | .error _ =>
    returnApiGatewayJson
      (some (setWF store "error" (.message "Access denied"))) none

/-- app.py lines 71-149, handle_oidc_redirect_callback.  The store
argument is the decoded session (get_store on the cookie header, line
94).  The try/except at lines 95-109 catches AccessDenied from login
only; an AccessDenied raised by convert_account_alias at line 114 is
outside that try block and escapes this function (an `.error` result),
to be turned into the 500 response by lambda_handler's catch-all.  The
logger.info calls at lines 117-120 and 139-141 evaluate
get_email_or_username on store['id_token'] before returning / before the
final assignments; an exception there would also escape, but on these
paths the token was just stored by login so the call reduces to its
present-token success case. -/
def handle_oidc_redirect_callback (env : Env) (store : Store) (body : PBody) :
    Except PyExc ApiResponse :=
  match loginFn env body.state body.code body.error body.error_description store with
  | .error _ =>
    .ok (returnApiGatewayJson
      (some (setWF store "error" (.message "Access denied"))) none)
  | .ok tok =>
    let store := { store with id_token := some tok }
    if store.action = some "aws-web-console" then
      match store.role_arn with
      | some arn =>
        match env.convertAccountAlias arn tok store.cacheOrTrue with
        | .error _ => .error .accessDenied
        | .ok arn2 =>
          let store := { store with role_arn := some arn2 }
          let result := pick_role env store
          match get_email_or_username env store.id_token with
          | .error e => .error e
          | .ok _ => .ok result
      | none =>
        .ok (returnApiGatewayJson
          (some { store with client_workflow_state := some "role_picker" }) none)
    else if store.action = some "rebuild-group-role-map" then
      let store := setWF store "info" (.message "Processing rebuild...")
      match env.triggerRebuild tok with
      | .error _ =>
        .ok (returnApiGatewayJson
          (some (setWF store "error" (.message "Access denied"))) none)
      | .ok _ =>
        match get_email_or_username env store.id_token with
        | .error e => .error e
        | .ok _ =>
          .ok (returnApiGatewayJson
            (some (setWF store "info"
              (.message "Group Role Map rebuild initiated"))) none)
    else
      .ok (returnApiGatewayJson
        (some (setWF store "error" (.message "Invalid action argument"))) none)

/-- app.py lines 152-169, get_state: return the current workflow state
and value; return_api_gateway_json is called with store=None, so the
response sets no cookie. -/
def get_state (store : Store) : ApiResponse :=
  returnApiGatewayJson none
    (some (.stateValue store.client_workflow_state store.client_workflow_value))

/-- The stored_vars dict built at app.py lines 286-295 before the
redirect_to_idp call. -/
structure StoredVars where
  destination_url : String
  role_arn : Option String := none
  role_name : Option String := none
  role_account_alias : Option String := none
deriving Repr, DecidableEq

/-- store.update(stored_vars) at app.py line 215: keys present in
stored_vars overwrite the store, absent keys leave it unchanged. -/
def applyStoredVars (s : Store) (sv : StoredVars) : Store :=
  { s with
    destination_url := some sv.destination_url,
    role_arn := match sv.role_arn with | some a => some a | none => s.role_arn,
    role_name := match sv.role_name with | some a => some a | none => s.role_name,
    role_account_alias :=
      match sv.role_account_alias with | some a => some a | none => s.role_account_alias }

/-- app.py lines 173-250, redirect_to_idp: generate the PKCE pair and the
OIDC state, build the cookie store, and 302-redirect the user to the
identity provider's authorization endpoint. -/
def redirect_to_idp (env : Env) (action : String) (stored_vars : StoredVars)
    (session_duration : Option Int) (cache : Bool) : ApiResponse :=
  let code_verifier := base64_without_padding env.urandom1
  let code_challenge := base64_without_padding (env.sha256 (strBytes code_verifier))
  let st := "1-" ++ base64_without_padding env.urandom2
  let store : Store :=
    { action := some action,
      oidc_state := some st,
      code_verifier := some code_verifier,
      session_duration := session_duration,
      cache := some cache,
      client_workflow_state := none,
      client_workflow_value := none }
  let store := applyStoredVars store stored_vars
  let url_parameters :=
    [("scope", env.config.oidc_scope),
     ("response_type", "code"),
     ("redirect_uri", env.config.redirect_uri),
     ("client_id", env.config.client_id),
     ("code_challenge", code_challenge),
     ("code_challenge_method", "S256"),
     ("state", st)]
  let redirect_url := urlunparse env.authEndpoint (urlencode url_parameters)
  { statusCode := 302,
    cookieStore := some store,
    location := some redirect_url,
    textBody := some "Redirecting to identity provider" }

/-- app.py lines 276-283: body parsing before the main try block.
b64decode TypeError (a `None` body) and json.loads decode errors are
caught and replaced by the error record; a binascii.Error from b64decode
is not in the except clause and escapes. -/
def parseBody (env : Env) (body : Option String) : Except PyExc PBody :=
  match pyB64decode body with
  | .error .typeError => .ok errorRecord
  | .error e => .error e
  | .ok bytes =>
    match env.jsonLoads bytes with
    | .error _ => .ok errorRecord
    | .ok pb => .ok pb

/-- The cache query-parameter computation at app.py lines 301-302:
`query_string_parameters.get('cache', 'true').lower() == 'true'`. -/
def startCacheFlag (q : List (String × String)) : Bool :=
  pyLower ((qget q "cache").getD "true") == "true"

/-- app.py line 297: int(query_string_parameters.get('session_duration',
CONFIG.default_session_duration)); when the parameter is absent the
default is already an int. -/
def sessionDurationOf (env : Env) (q : List (String × String)) : Except PyExc Int :=
  match qget q "session_duration" with
  | some s => pyInt s
  | none => .ok env.config.default_session_duration

/-- The body of the main try block of lambda_handler (app.py lines
284-392): route on path and method.  An `.error` result is an exception
reaching the catch-all at line 393.  On the POST /api/roles success path
the logger.info at lines 347-350 evaluates get_email_or_username on
store.get('id_token') after pick_role and before returning; with no
session that token is None, so the request's fate there hangs on the
abstract `env.emailOnNone`. -/
def route (env : Env) (event : Event) (store : Store) (parsed_body : PBody) :
    Except PyExc ApiResponse :=
  let qsp := event.queryStringParameters
  if event.path = some "/" then
    let stored_vars : StoredVars :=
      { destination_url := env.getDestinationUrl event.referer,
        role_arn := env.getRoleArn qsp,
        role_name := qget qsp "role",
        role_account_alias := qget qsp "account" }
    match sessionDurationOf env qsp with
    | .error e => .error e
    | .ok dur =>
      let action := (qget qsp "action").getD "aws-web-console"
      .ok (redirect_to_idp env action stored_vars (some dur) (startCacheFlag qsp))
  else if event.path = some "/redirect_uri" then
    .ok { statusCode := 200,
          cookieStore := some { store with client_workflow_state := some "redirecting" },
          textBody := env.readResource (some "/index.html") }
  else if event.path = some "/redirect_callback" ∧ event.httpMethod = some "POST" then
    handle_oidc_redirect_callback env store parsed_body
  else if event.path = some "/api/roles" then
    if event.httpMethod = some "GET" then
      match store.id_token with
      | none => .error .keyError
      | some tok =>
        match env.getRoles tok store.cacheOrTrue with
        | .error _ => .error .accessDenied
        | .ok roles =>
          .ok (returnApiGatewayJson
            (some { store with client_workflow_state := some "awaiting_role" })
            (some roles))
    else if event.httpMethod = some "POST" then
      if parsed_body.error.isSome ∨ parsed_body.arn = none then
        .ok resp403
      else
        match parsed_body.roleAlias with
        | none => .error .keyError
        | some a =>
          match parsed_body.arn with
          | none => .error .keyError
          | some arn =>
            match parsed_body.role with
            | none => .error .keyError
            | some r =>
              let store := { store with
                role_account_alias := some a,
                role_arn := some arn,
                role_name := some r }
              let result := pick_role env store
              match get_email_or_username env store.id_token with
              | .error e => .error e
              | .ok _ => .ok result
    else
      .ok { statusCode := 405, textBody := some "Method not allowed" }
  else if event.path = some "/api/state" then
    .ok (get_state store)
  else if event.path = some "/api/heartbeat" then
    .ok (returnApiGatewayJson (some store) (some (.result "running")))
  else if event.path = some "/shutdown" then
    .ok (returnApiGatewayJson
      (some { store with client_workflow_state := some "finished" }) none)
  else
    match env.readResource event.path with
    | some b => .ok { statusCode := 200, textBody := some b }
    | none => .ok { statusCode := 404, textBody := some "Not Found" }

/-- app.py lines 253-399, lambda_handler.  The body parse at lines
276-283 happens before the main try block, so its uncaught exceptions
(binascii.Error) escape the handler entirely; inside the main try block
every exception becomes the fixed 500 response. -/
def lambda_handler (env : Env) (event : Event) : Except PyExc ApiResponse :=
  let store := env.getStore event.cookieHeader
  match parseBody env event.body with
  | .error e => .error e
  | .ok parsed_body =>
    match route env event store parsed_body with
    | .ok r => .ok r
    | .error _ => .ok resp500

-- ---------------------------------------------------------------------
-- Shared helper lemmas and concrete fixtures
-- ---------------------------------------------------------------------

theorem loginFn_denied (env : Env) (store : Store)
    (state code error errorDescription : Option String)
    (h : error.isSome = true ∨ state ≠ store.oidc_state) :
    loginFn env state code error errorDescription store = .error () := by
  unfold loginFn
  rcases h with h | h
  · simp [h]
  · by_cases he : error.isSome = true
    · simp [he]
    · simp [he, h]

/-- Length of the unpadded base64 encoding: 4 characters per 3 bytes,
with 2 or 3 characters for a trailing partial group. -/
theorem b64EncodeGroups_length (bs : List Nat) :
    (b64EncodeGroups bs).length = (4 * bs.length + 2) / 3 := by
  induction bs using b64EncodeGroups.induct with
  | case1 a b c rest ih =>
    simp only [b64EncodeGroups, List.length_cons]
    omega
  | case2 a b => simp [b64EncodeGroups]
  | case3 a => simp [b64EncodeGroups]
  | case4 => simp [b64EncodeGroups]

theorem base64_without_padding_length (bs : List Nat) :
    (base64_without_padding bs).length = (4 * bs.length + 2) / 3 := by
  simpa [base64_without_padding, String.length] using b64EncodeGroups_length bs

/-- A base environment for the concrete witnesses below.  Its abstract
helpers are simple total functions; individual witnesses override the
fields they need. -/
def baseEnv : Env :=
  { sha256 := fun bs => bs.map (fun b => (b + 1) % 256),
    urandom1 := List.replicate 32 7,
    urandom2 := List.replicate 32 9,
    jsonLoads := fun _ => .error (),
    exchange := fun _ _ => .ok "tok",
    convertAccountAlias := fun a _ _ => .ok a,
    fedCore := fun _ _ => .ok "https://signin.aws.example/federation",
    triggerRebuild := fun _ => .ok (),
    getRoles := fun _ _ => .ok (.roles "rolelist"),
    getRoleArn := fun q => qget q "role_arn",
    getDestinationUrl := fun r => r,
    getStore := fun _ => emptyStore,
    emailOf := fun _ => "user@example.com",
    emailOnNone := .error .typeError,
    readResource := fun _ => some "indexhtml",
    config :=
      { oidc_scope := "openid email",
        redirect_uri := "https://rp.example/redirect_uri",
        client_id := "cid",
        cookie_name := "session",
        default_session_duration := 43200 },
    authEndpoint :=
      { scheme := "https", netloc := "auth.example.com", path := "/authorize" } }

/-- A session as left by a start request that pre-selected a role. -/
def storeWithRole : Store :=
  { action := some "aws-web-console",
    oidc_state := some "1-state",
    code_verifier := some "ver",
    session_duration := some 43200,
    cache := some true,
    role_arn := some "arn:aws:iam::111122223333:role/Admin",
    destination_url := some "https://console.aws.example/" }

/-- The same session without a pre-selected role. -/
def storeNoRole : Store :=
  { storeWithRole with role_arn := none }

/-- A callback body that matches the session's state and carries a code. -/
def okBody : PBody :=
  { state := some "1-state", code := some "authcode" }

-- ---------------------------------------------------------------------
-- C1
-- ---------------------------------------------------------------------

/-- Claim C1: for every decoded session and every callback input in which
the identity provider returned an error parameter, or in which the
returned state differs from the session's oidc_state, callback
processing leaves the session in workflow state "error" with the fixed
value message "Access denied", regardless of the validity of the code
and of the content of error_description - the right-hand side below is a
fixed record in which no provider-supplied error text occurs. -/
theorem c1_callback_denied (env : Env) (store : Store) (body : PBody)
    (h : body.error.isSome = true ∨ body.state ≠ store.oidc_state) :
    handle_oidc_redirect_callback env store body =
      .ok (returnApiGatewayJson
        (some (setWF store "error" (.message "Access denied"))) none) := by
  unfold handle_oidc_redirect_callback
  rw [loginFn_denied env store body.state body.code body.error body.error_description h]

/-- Witness for C1 at a concrete input: the identity provider returns
error "access_denied" with a hostile error_description, and the session
still ends in the fixed "Access denied" record. -/
theorem c1_witness :
    ({ state := some "1-state", code := some "authcode",
       error := some "access_denied",
       error_description := some "secret detail" : PBody }.error.isSome = true ∨
     ({ state := some "1-state", code := some "authcode",
        error := some "access_denied",
        error_description := some "secret detail" : PBody }.state ≠
        storeWithRole.oidc_state)) ∧
    handle_oidc_redirect_callback baseEnv storeWithRole
      { state := some "1-state", code := some "authcode",
        error := some "access_denied", error_description := some "secret detail" } =
      .ok (returnApiGatewayJson
        (some (setWF storeWithRole "error" (.message "Access denied"))) none) :=
  ⟨Or.inl rfl,
   c1_callback_denied baseEnv storeWithRole
     { state := some "1-state", code := some "authcode",
       error := some "access_denied", error_description := some "secret detail" }
     (Or.inl rfl)⟩

-- ---------------------------------------------------------------------
-- C2
-- ---------------------------------------------------------------------

/-- Claim C2: on every start transition the code verifier is the
unpadded base64url encoding of the 32 random bytes of the first
os.urandom call (hence 43 characters, 256 bits of entropy), the emitted
code_challenge is the unpadded base64url encoding of SHA-256 of the
verifier string, code_challenge_method is the fixed "S256", and the OIDC
state is built from the second, separate 32 random bytes - unchanged
when the verifier randomness is replaced by anything else. -/
theorem c2_pkce_generation (env : Env) (action : String) (sv : StoredVars)
    (dur : Option Int) (cache : Bool)
    (h1 : env.urandom1.length = 32) (h2 : env.urandom2.length = 32) :
    (redirect_to_idp env action sv dur cache).cookieStore.map Store.code_verifier =
      some (some (base64_without_padding env.urandom1)) ∧
    (base64_without_padding env.urandom1).length = 43 ∧
    (redirect_to_idp env action sv dur cache).cookieStore.map Store.oidc_state =
      some (some ("1-" ++ base64_without_padding env.urandom2)) ∧
    ("1-" ++ base64_without_padding env.urandom2).length = 45 ∧
    (redirect_to_idp env action sv dur cache).location =
      some (urlunparse env.authEndpoint (urlencode
        [("scope", env.config.oidc_scope),
         ("response_type", "code"),
         ("redirect_uri", env.config.redirect_uri),
         ("client_id", env.config.client_id),
         ("code_challenge",
           base64_without_padding
             (env.sha256 (strBytes (base64_without_padding env.urandom1)))),
         ("code_challenge_method", "S256"),
         ("state", "1-" ++ base64_without_padding env.urandom2)])) ∧
    (∀ u1 : List Nat,
      (redirect_to_idp { env with urandom1 := u1 } action sv dur cache).cookieStore.map
          Store.oidc_state =
        some (some ("1-" ++ base64_without_padding env.urandom2))) := by
  refine ⟨?_, ?_, ?_, ?_, ?_, ?_⟩
  · simp [redirect_to_idp, applyStoredVars]
  · rw [base64_without_padding_length, h1]
  · simp [redirect_to_idp, applyStoredVars]
  · have : (base64_without_padding env.urandom2).length = 43 := by
      rw [base64_without_padding_length, h2]
    simp [String.length_append, this]
    decide
  · simp [redirect_to_idp]
  · intro u1
    simp [redirect_to_idp, applyStoredVars]

/-- Witness for C2 at concrete 32-byte randomness. -/
theorem c2_witness :
    baseEnv.urandom1.length = 32 ∧ baseEnv.urandom2.length = 32 ∧
    (redirect_to_idp baseEnv "aws-web-console"
        { destination_url := "https://console.aws.example/" } (some 43200)
        true).cookieStore.map Store.code_verifier =
      some (some (base64_without_padding baseEnv.urandom1)) :=
  ⟨by decide, by decide,
   (c2_pkce_generation baseEnv "aws-web-console"
     { destination_url := "https://console.aws.example/" } (some 43200) true
     (by decide) (by decide)).1⟩

-- ---------------------------------------------------------------------
-- C3
-- ---------------------------------------------------------------------

/-- Claim C3 as stated is false on the code: an environment whose
convert_account_alias raises AccessDenied.  The raise at app.py line 114
sits outside the try/except of lines 95-109, so with a role_arn present
and a successful token exchange the callback neither reaches
aws_federate nor error - the exception escapes the callback
(and becomes the generic 500 in lambda_handler), refuting "sets
workflowState to aws_federate or error". -/
theorem c3_counterexample :
    ¬ (∀ (env : Env) (store : Store) (body : PBody) (tok : String),
        store.action = some "aws-web-console" →
        store.role_arn.isSome = true →
        loginFn env body.state body.code body.error body.error_description store =
          .ok tok →
        ∃ r, handle_oidc_redirect_callback env store body = .ok r ∧
          (r.cookieStore.map Store.client_workflow_state = some (some "aws_federate") ∨
           r.cookieStore.map Store.client_workflow_state = some (some "error"))) := by
  intro h
  rcases h { baseEnv with convertAccountAlias := fun _ _ _ => .error () }
      storeWithRole okBody "tok" rfl rfl rfl with ⟨r, hr, _⟩
  have hcrash : handle_oidc_redirect_callback
      { baseEnv with convertAccountAlias := fun _ _ _ => .error () }
      storeWithRole okBody = Except.error PyExc.accessDenied := by rfl
  rw [hcrash] at hr
  cases hr

/-- Claim C3, amended: after a successful token exchange with action
aws-web-console, no role_arn yields role_picker; a role_arn whose alias
conversion succeeds yields an attempted federation ending in
aws_federate (carrying the federation URL) or error - never role_picker;
and a role_arn whose alias conversion raises AccessDenied makes the
exception escape the callback (app.py line 114 is outside the
try/except), resolving to the generic 500 rather than to any workflow
state. -/
theorem c3_action_routing (env : Env) (store : Store) (body : PBody) (tok : String)
    (hact : store.action = some "aws-web-console")
    (hlog : loginFn env body.state body.code body.error body.error_description store =
      .ok tok) :
    (store.role_arn = none →
      handle_oidc_redirect_callback env store body =
        .ok (returnApiGatewayJson
          (some { store with
              id_token := some tok,
              client_workflow_state := some "role_picker" }) none)) ∧
    (∀ arn arn2, store.role_arn = some arn →
      env.convertAccountAlias arn tok store.cacheOrTrue = .ok arn2 →
      ∃ r, handle_oidc_redirect_callback env store body = .ok r ∧
        ((r.cookieStore.map Store.client_workflow_state = some (some "aws_federate") ∧
          ∃ url, r.cookieStore.map Store.client_workflow_value =
            some (some (.federationUrl url))) ∨
         r.cookieStore.map Store.client_workflow_state = some (some "error")) ∧
        r.cookieStore.map Store.client_workflow_state ≠ some (some "role_picker")) ∧
    (∀ arn, store.role_arn = some arn →
      env.convertAccountAlias arn tok store.cacheOrTrue = .error () →
      handle_oidc_redirect_callback env store body = .error .accessDenied) := by
  refine ⟨?_, ?_, ?_⟩
  · intro hnone
    simp [handle_oidc_redirect_callback, hlog, hact, hnone]
  · intro arn arn2 harn hconv
    have hc : env.convertAccountAlias arn tok (store.cache.getD true) = .ok arn2 := by
      simpa [Store.cacheOrTrue] using hconv
    refine ⟨pick_role env
      { store with id_token := some tok, role_arn := some arn2 }, ?_, ?_, ?_⟩
    · simp [handle_oidc_redirect_callback, hlog, hact, harn, Store.cacheOrTrue, hc,
        get_email_or_username]
    · unfold pick_role
      cases getAwsFederationUrl env
          { store with id_token := some tok, role_arn := some arn2 } with
      | ok url => exact Or.inl ⟨rfl, ⟨url, rfl⟩⟩
      | error e => exact Or.inr rfl
    · unfold pick_role
      cases getAwsFederationUrl env
          { store with id_token := some tok, role_arn := some arn2 } with
      | ok url => simp [returnApiGatewayJson, setWF]
      | error e => simp [returnApiGatewayJson, setWF]
  · intro arn harn hconv
    have hc : env.convertAccountAlias arn tok (store.cache.getD true) = .error () := by
      simpa [Store.cacheOrTrue] using hconv
    simp [handle_oidc_redirect_callback, hlog, hact, harn, Store.cacheOrTrue, hc]

/-- Witness for the amended C3 at a concrete input: a successful exchange
with no role_arn lands in role_picker. -/
theorem c3_witness :
    storeNoRole.action = some "aws-web-console" ∧
    loginFn baseEnv okBody.state okBody.code okBody.error okBody.error_description
      storeNoRole = .ok "tok" ∧
    handle_oidc_redirect_callback baseEnv storeNoRole okBody =
      .ok (returnApiGatewayJson
        (some { storeNoRole with
            id_token := some "tok",
            client_workflow_state := some "role_picker" }) none) :=
  ⟨rfl, rfl, (c3_action_routing baseEnv storeNoRole okBody "tok" rfl rfl).1 rfl⟩

-- ---------------------------------------------------------------------
-- C4
-- ---------------------------------------------------------------------

/-- Status code and cookie workflow state of a handler outcome. -/
def respSummary (e : Except PyExc ApiResponse) : Option (Nat × Option (Option String)) :=
  match e with
  | .ok r => some (r.statusCode, r.cookieStore.map Store.client_workflow_state)
  | .error _ => none

/-- A concrete start request: GET / with no query parameters. -/
def startEvent : Event :=
  { path := some "/", referer := "https://console.aws.example/", body := none }

/-- Claim C4 counterexample: the start transition's 302 response carries a
cookie whose client_workflow_state is None, not "redirecting" - app.py
line 211 stores None and the "redirecting" value is only written by the
separate /redirect_uri request (line 309). -/
theorem c4_counterexample :
    respSummary (lambda_handler baseEnv startEvent) = some (302, some none) ∧
    respSummary (lambda_handler baseEnv startEvent) ≠
      some (302, some (some "redirecting")) := by
  exact ⟨rfl, by decide⟩

theorem applyStoredVars_of_none (s : Store) (sv : StoredVars)
    (h1 : s.role_arn = none) (h2 : s.role_name = none)
    (h3 : s.role_account_alias = none) :
    applyStoredVars s sv =
      { s with
        destination_url := some sv.destination_url,
        role_arn := sv.role_arn,
        role_name := sv.role_name,
        role_account_alias := sv.role_account_alias } := by
  unfold applyStoredVars
  cases sv.role_arn <;> cases sv.role_name <;> cases sv.role_account_alias <;>
    simp [h1, h2, h3]

/-- Claim C4, amended: the start transition emits a cookie record whose
client_workflow_state is still null - the "redirecting" value is only
set by the subsequent /redirect_uri request - carrying the chosen
action, destination URL, any pre-selected role_arn/role_name/
role_account_alias, session_duration and cache flag, together with the
oidc_state and code_verifier generated in the same step, plus a 302
redirect to the identity provider's authorization endpoint whose query
string encodes scope, response_type=code, redirect_uri, client_id,
code_challenge, code_challenge_method=S256 and state. -/
theorem c4_start_transition (env : Env) (event : Event) (dur : Int)
    (hpath : event.path = some "/")
    (hb : event.body = none)
    (hdur : sessionDurationOf env event.queryStringParameters = .ok dur) :
    lambda_handler env event = .ok
      { statusCode := 302,
        cookieStore := some
          { action := some ((qget event.queryStringParameters "action").getD
              "aws-web-console"),
            oidc_state := some ("1-" ++ base64_without_padding env.urandom2),
            code_verifier := some (base64_without_padding env.urandom1),
            session_duration := some dur,
            cache := some (startCacheFlag event.queryStringParameters),
            client_workflow_state := none,
            client_workflow_value := none,
            destination_url := some (env.getDestinationUrl event.referer),
            role_arn := env.getRoleArn event.queryStringParameters,
            role_name := qget event.queryStringParameters "role",
            role_account_alias := qget event.queryStringParameters "account",
            id_token := none },
        location := some (urlunparse env.authEndpoint (urlencode
          [("scope", env.config.oidc_scope),
           ("response_type", "code"),
           ("redirect_uri", env.config.redirect_uri),
           ("client_id", env.config.client_id),
           ("code_challenge",
             base64_without_padding
               (env.sha256 (strBytes (base64_without_padding env.urandom1)))),
           ("code_challenge_method", "S256"),
           ("state", "1-" ++ base64_without_padding env.urandom2)])),
        textBody := some "Redirecting to identity provider",
        jsonData := none } ∧
    (∀ e2 : Event, e2.path = some "/redirect_uri" → e2.body = none →
      lambda_handler env e2 = .ok
        { statusCode := 200,
          cookieStore := some
            { env.getStore e2.cookieHeader with
                client_workflow_state := some "redirecting" },
          textBody := env.readResource (some "/index.html") }) := by
  constructor
  · simp only [lambda_handler, parseBody, pyB64decode, hb]
    simp only [route, hpath, hdur, redirect_to_idp]
    rw [applyStoredVars_of_none _ _ rfl rfl rfl]
    simp
  · intro e2 h1 h2
    simp only [lambda_handler, parseBody, pyB64decode, h2]
    simp [route, h1]

/-- Witness for the amended C4 at the concrete start request. -/
theorem c4_witness :
    startEvent.path = some "/" ∧ startEvent.body = none ∧
    sessionDurationOf baseEnv startEvent.queryStringParameters = .ok 43200 ∧
    (lambda_handler baseEnv startEvent).map ApiResponse.statusCode = .ok 302 := by
  refine ⟨rfl, rfl, rfl, ?_⟩
  rw [(c4_start_transition baseEnv startEvent 43200 rfl rfl rfl).1]
  rfl

-- ---------------------------------------------------------------------
-- C5
-- ---------------------------------------------------------------------

/-- On POST /api/roles with a required field missing, route yields the
403 invalid-POST response when the guard at app.py line 332 fires
(error key present or arn missing), and otherwise the KeyError from the
dict literal at lines 341-345 - built before store.update runs, so the
store is never partially written. -/
theorem route_post_missing (env : Env) (event : Event) (store : Store) (pb : PBody)
    (hpath : event.path = some "/api/roles") (hm : event.httpMethod = some "POST")
    (hmiss : pb.arn = none ∨ pb.roleAlias = none ∨ pb.role = none) :
    route env event store pb =
      (if pb.error.isSome = true ∨ pb.arn = none then .ok resp403
       else .error .keyError) := by
  by_cases hg : pb.error.isSome = true ∨ pb.arn = none
  · simp [route, hpath, hm, hg]
  · push_neg at hg
    obtain ⟨he, ha⟩ := hg
    cases harn : pb.arn with
    | none => exact absurd harn ha
    | some arn =>
      rcases hmiss with h | h | h
      · rw [h] at harn; cases harn
      · simp [route, hpath, hm, he, harn, h]
      · cases hal : pb.roleAlias with
        | none => simp [route, hpath, hm, he, harn, hal]
        | some al => simp [route, hpath, hm, he, harn, hal, h]

/-- Claim C5: a role-pick POST missing any of arn, alias or role is
rejected - as the 403 invalid-POST response or as the KeyError that the
catch-all turns into the fixed 500 - before any resolution or
federation attempt (the outcome is unchanged under any replacement of
the federation function), and the response carries no Set-Cookie, so
the stored session record is not mutated at all. -/
theorem c5_role_pick_missing_fields (env : Env) (event : Event) (pb : PBody)
    (hpath : event.path = some "/api/roles") (hm : event.httpMethod = some "POST")
    (hparse : parseBody env event.body = .ok pb)
    (hmiss : pb.arn = none ∨ pb.roleAlias = none ∨ pb.role = none) :
    (lambda_handler env event = .ok resp403 ∨
     lambda_handler env event = .ok resp500) ∧
    (∀ r, lambda_handler env event = .ok r → r.cookieStore = none) ∧
    (∀ f, lambda_handler { env with fedCore := f } event =
      lambda_handler env event) := by
  have hr := route_post_missing env event (env.getStore event.cookieHeader) pb
    hpath hm hmiss
  have hlam : lambda_handler env event =
      (if pb.error.isSome = true ∨ pb.arn = none then .ok resp403
       else .ok resp500) := by
    by_cases hg : pb.error.isSome = true ∨ pb.arn = none
    · simp [lambda_handler, hparse, hr, hg]
    · simp [lambda_handler, hparse, hr, hg]
  refine ⟨?_, ?_, ?_⟩
  · rw [hlam]
    by_cases hg : pb.error.isSome = true ∨ pb.arn = none
    · left; rw [if_pos hg]
    · right; rw [if_neg hg]
  · intro r hrr
    rw [hlam] at hrr
    by_cases hg : pb.error.isSome = true ∨ pb.arn = none
    · rw [if_pos hg] at hrr
      injection hrr with h2
      rw [← h2]
      rfl
    · rw [if_neg hg] at hrr
      injection hrr with h2
      rw [← h2]
      rfl
  · intro f
    have hparse2 : parseBody { env with fedCore := f } event.body = .ok pb := hparse
    have hr2 := route_post_missing { env with fedCore := f } event
      ({ env with fedCore := f }.getStore event.cookieHeader) pb hpath hm hmiss
    have hlam2 : lambda_handler { env with fedCore := f } event =
        (if pb.error.isSome = true ∨ pb.arn = none then .ok resp403
         else .ok resp500) := by
      by_cases hg : pb.error.isSome = true ∨ pb.arn = none
      · simp [lambda_handler, hparse2, hr2, hg]
      · simp [lambda_handler, hparse2, hr2, hg]
    rw [hlam, hlam2]

/-- A role-pick POST whose body fails to parse (here: a None body, giving
the parse-error record with no arn/alias/role). -/
def c5Event : Event :=
  { path := some "/api/roles", httpMethod := some "POST", body := none }

/-- Witness for C5 at the concrete request. -/
theorem c5_witness :
    c5Event.path = some "/api/roles" ∧ c5Event.httpMethod = some "POST" ∧
    parseBody baseEnv c5Event.body = .ok errorRecord ∧
    errorRecord.arn = none ∧
    (lambda_handler baseEnv c5Event = .ok resp403 ∨
     lambda_handler baseEnv c5Event = .ok resp500) :=
  ⟨rfl, rfl, rfl, rfl,
   (c5_role_pick_missing_fields baseEnv c5Event errorRecord rfl rfl rfl
     (Or.inl rfl)).1⟩

-- ---------------------------------------------------------------------
-- C6
-- ---------------------------------------------------------------------

/-- A role-listing request with no session cookie. -/
def c6Event : Event :=
  { path := some "/api/roles", httpMethod := some "GET", body := none }

/-- Claim C6 counterexample: role listing with an absent session (the
cookie decodes to the empty store) is not denied as a 4xx or an error
workflow state - `store['id_token']` at app.py line 328 raises KeyError,
which the catch-all resolves to the generic 500 response. -/
theorem c6_counterexample :
    baseEnv.getStore c6Event.cookieHeader = emptyStore ∧
    lambda_handler baseEnv c6Event = .ok resp500 := by
  exact ⟨rfl, rfl⟩

/-- Claim C6, amended: with an absent or integrity-failed cookie (decoded
as the empty session), neither role operation is denied as a 4xx
InvalidRequest.  A role-listing GET resolves to the generic 500 response
through the uncaught KeyError on the missing id_token (app.py line 328).
A role-pick POST carrying a complete body first runs pick_role, whose
spec-modelled federation call rejects the missing ID token as
AccessDenied and stores the error workflow state - but the logger.info
at app.py line 349 then evaluates get_email_or_username on the None
token, whose behaviour the spec leaves unspecified: when it returns, the
response is the error-workflow-state record; when it raises, the
exception reaches the catch-all and the response is the generic 500
instead. -/
theorem c6_empty_session (env : Env) (event : Event) (pb : PBody)
    (hpath : event.path = some "/api/roles")
    (hparse : parseBody env event.body = .ok pb)
    (hstore : env.getStore event.cookieHeader = emptyStore) :
    (event.httpMethod = some "GET" → lambda_handler env event = .ok resp500) ∧
    (event.httpMethod = some "POST" → pb.error = none →
      ∀ arn al role, pb.arn = some arn → pb.roleAlias = some al →
        pb.role = some role →
        (∀ email, env.emailOnNone = .ok email →
          lambda_handler env event = .ok (returnApiGatewayJson
            (some (setWF
              { emptyStore with
                  role_account_alias := some al,
                  role_arn := some arn,
                  role_name := some role }
              "error" (.message "Access denied"))) none)) ∧
        (∀ e, env.emailOnNone = .error e →
          lambda_handler env event = .ok resp500)) := by
  constructor
  · intro hm
    simp [lambda_handler, hparse, route, hpath, hm, hstore, emptyStore]
  · intro hm he arn al role harn hal hrole
    constructor
    · intro email hemail
      simp [lambda_handler, hparse, route, hpath, hm, hstore, he, harn, hal, hrole,
        pick_role, getAwsFederationUrl, emptyStore, get_email_or_username, hemail]
    · intro e hemail
      simp [lambda_handler, hparse, route, hpath, hm, hstore, he, harn, hal, hrole,
        pick_role, getAwsFederationUrl, emptyStore, get_email_or_username, hemail]

/-- A complete role selection, as parsed from a role-pick POST body. -/
def fullBody : PBody :=
  { arn := some "arn:aws:iam::111122223333:role/Admin",
    roleAlias := some "acct", role := some "Admin" }

/-- An environment whose body parser yields the complete role selection
and whose identity-claims reader tolerates the absent token. -/
def c6PostEnv : Env :=
  { baseEnv with
    jsonLoads := fun _ => .ok fullBody,
    emailOnNone := .ok "unknown" }

/-- The same environment except the identity-claims reader raises on the
absent token (as baseEnv's does). -/
def c6PostRaiseEnv : Env := { baseEnv with jsonLoads := fun _ => .ok fullBody }

/-- A role-pick POST with no session cookie ("e30=" is base64 of an empty
JSON object). -/
def c6PostEvent : Event :=
  { path := some "/api/roles", httpMethod := some "POST", body := some "e30=" }

/-- Witness for the amended C6 at the concrete role-pick request, in both
behaviours of the identity-claims reader on the absent token. -/
theorem c6_witness :
    c6PostEvent.path = some "/api/roles" ∧
    parseBody c6PostEnv c6PostEvent.body = .ok fullBody ∧
    c6PostEnv.getStore c6PostEvent.cookieHeader = emptyStore ∧
    c6PostEnv.emailOnNone = .ok "unknown" ∧
    lambda_handler c6PostEnv c6PostEvent = .ok (returnApiGatewayJson
      (some (setWF
        { emptyStore with
            role_account_alias := some "acct",
            role_arn := some "arn:aws:iam::111122223333:role/Admin",
            role_name := some "Admin" }
        "error" (.message "Access denied"))) none) ∧
    c6PostRaiseEnv.emailOnNone = .error .typeError ∧
    lambda_handler c6PostRaiseEnv c6PostEvent = .ok resp500 :=
  ⟨rfl, rfl, rfl, rfl,
   ((c6_empty_session c6PostEnv c6PostEvent fullBody rfl rfl rfl).2 rfl rfl
     "arn:aws:iam::111122223333:role/Admin" "acct" "Admin" rfl rfl rfl).1
     "unknown" rfl,
   rfl,
   ((c6_empty_session c6PostRaiseEnv c6PostEvent fullBody rfl rfl rfl).2 rfl rfl
     "arn:aws:iam::111122223333:role/Admin" "acct" "Admin" rfl rfl rfl).2
     .typeError rfl⟩

-- ---------------------------------------------------------------------
-- C7
-- ---------------------------------------------------------------------

/-- Claim C7: with action rebuild-group-role-map after a successful token
exchange, the workflow first takes the intermediate info state with the
"Processing rebuild..." message (visible as the inner setWF below), then
settles to info "Group Role Map rebuild initiated" when the trigger
succeeds and to error "Access denied" when it raises AccessDenied; a
trigger failure never escapes the callback, and every other field of the
session record is left intact. -/
theorem c7_rebuild_group_role_map (env : Env) (store : Store) (body : PBody)
    (tok : String)
    (hact : store.action = some "rebuild-group-role-map")
    (hlog : loginFn env body.state body.code body.error body.error_description store =
      .ok tok) :
    (env.triggerRebuild tok = .ok () →
      handle_oidc_redirect_callback env store body = .ok (returnApiGatewayJson
        (some (setWF
          (setWF { store with id_token := some tok } "info"
            (.message "Processing rebuild..."))
          "info" (.message "Group Role Map rebuild initiated"))) none)) ∧
    (env.triggerRebuild tok = .error () →
      handle_oidc_redirect_callback env store body = .ok (returnApiGatewayJson
        (some (setWF
          (setWF { store with id_token := some tok } "info"
            (.message "Processing rebuild..."))
          "error" (.message "Access denied"))) none)) ∧
    (∀ r s, handle_oidc_redirect_callback env store body = .ok r →
      r.cookieStore = some s →
      s.action = store.action ∧ s.oidc_state = store.oidc_state ∧
      s.code_verifier = store.code_verifier ∧
      s.session_duration = store.session_duration ∧ s.cache = store.cache ∧
      s.destination_url = store.destination_url ∧ s.role_arn = store.role_arn ∧
      s.role_name = store.role_name ∧
      s.role_account_alias = store.role_account_alias) := by
  have hne : store.action ≠ some "aws-web-console" := by
    rw [hact]; simp
  refine ⟨?_, ?_, ?_⟩
  · intro ht
    simp [handle_oidc_redirect_callback, hlog, hne, hact, ht, setWF,
      get_email_or_username]
  · intro ht
    simp [handle_oidc_redirect_callback, hlog, hne, hact, ht, setWF,
      get_email_or_username]
  · intro r s hr hs
    cases ht : env.triggerRebuild tok with
    | ok u =>
      cases u
      simp [handle_oidc_redirect_callback, hlog, hne, hact, ht, setWF,
        returnApiGatewayJson, get_email_or_username] at hr
      rw [← hr] at hs
      simp at hs
      rw [← hs]
      simp
      exact hact.symm
    | error e =>
      cases e
      simp [handle_oidc_redirect_callback, hlog, hne, hact, ht, setWF,
        returnApiGatewayJson, get_email_or_username] at hr
      rw [← hr] at hs
      simp at hs
      rw [← hs]
      simp
      exact hact.symm

/-- A session started with the rebuild action. -/
def rebuildStore : Store :=
  { storeNoRole with action := some "rebuild-group-role-map" }

/-- Witness for C7: a successful trigger at a concrete input. -/
theorem c7_witness :
    rebuildStore.action = some "rebuild-group-role-map" ∧
    loginFn baseEnv okBody.state okBody.code okBody.error okBody.error_description
      rebuildStore = .ok "tok" ∧
    baseEnv.triggerRebuild "tok" = .ok () ∧
    handle_oidc_redirect_callback baseEnv rebuildStore okBody =
      .ok (returnApiGatewayJson
        (some (setWF
          (setWF { rebuildStore with id_token := some "tok" } "info"
            (.message "Processing rebuild..."))
          "info" (.message "Group Role Map rebuild initiated"))) none) :=
  ⟨rfl, rfl, rfl,
   (c7_rebuild_group_role_map baseEnv rebuildStore okBody "tok" rfl rfl).1 rfl⟩

-- ---------------------------------------------------------------------
-- C8
-- ---------------------------------------------------------------------

/-- Claim C8: the state query is read-only - for every session record,
get_state returns the current client_workflow_state/value pair as the
response body, and both at the get_state level and on the /api/state
route the response carries no Set-Cookie, so no field of the session
record is mutated. -/
theorem c8_get_state_read_only (env : Env) (event : Event) (pb : PBody)
    (store : Store)
    (hpath : event.path = some "/api/state")
    (hparse : parseBody env event.body = .ok pb)
    (hstore : env.getStore event.cookieHeader = store) :
    get_state store =
      { statusCode := 200, cookieStore := none, location := none, textBody := none,
        jsonData := some (.stateValue store.client_workflow_state
          store.client_workflow_value) } ∧
    lambda_handler env event = .ok (get_state store) ∧
    (lambda_handler env event).map ApiResponse.cookieStore = .ok none := by
  refine ⟨rfl, ?_, ?_⟩
  · simp [lambda_handler, hparse, route, hpath, hstore]
  · simp [lambda_handler, hparse, route, hpath, hstore, get_state,
      returnApiGatewayJson]
    rfl

/-- A state query with a populated session cookie. -/
def c8Env : Env := { baseEnv with getStore := fun _ => storeWithRole }

/-- Witness for C8 at a concrete state query. -/
theorem c8_witness :
    parseBody c8Env (none : Option String) = .ok errorRecord ∧
    c8Env.getStore "" = storeWithRole ∧
    lambda_handler c8Env { path := some "/api/state", body := none } =
      .ok (get_state storeWithRole) :=
  ⟨rfl, rfl,
   (c8_get_state_read_only c8Env { path := some "/api/state", body := none }
     errorRecord storeWithRole rfl rfl rfl).2.1⟩

-- ---------------------------------------------------------------------
-- C9
-- ---------------------------------------------------------------------

/-- A role-pick POST whose body is invalid base64: after b64decode's
alphabet filtering, "abcde" leaves 5 data characters, 1 more than a
multiple of 4, so base64.b64decode raises binascii.Error. -/
def c9Event : Event :=
  { path := some "/api/roles", httpMethod := some "POST", body := some "abcde" }

/-- A role-pick POST whose body decodes as base64 (to the empty byte
string, all characters being outside the alphabet) but is not JSON. -/
def c9CaughtEvent : Event :=
  { path := some "/api/roles", httpMethod := some "POST", body := some "!!!" }

/-- Claim C9 evaluated at the failing input: the except clause at app.py
line 279 catches only json.JSONDecodeError and TypeError, but
base64.b64decode raises binascii.Error - a ValueError subclass - for the
body "abcde", and since lines 276-283 sit before the main try block the
exception escapes lambda_handler entirely instead of being replaced by
the error record and answered with 403.  By contrast a body whose
failure mode is a JSON decode error is caught and the role-pick POST is
rejected with the 403 invalid-POST response, as the claim describes. -/
theorem c9_body_parse_escape :
    pyB64decode (some "abcde") = .error .binasciiError ∧
    lambda_handler baseEnv c9Event = .error .binasciiError ∧
    lambda_handler baseEnv c9CaughtEvent = .ok resp403 := by
  exact ⟨rfl, rfl, rfl⟩

-- ---------------------------------------------------------------------
-- C10
-- ---------------------------------------------------------------------

/-- Claim C10: at flow start the cache flag is true exactly when the
cache query parameter - defaulting to "true" when absent - equals "true"
case-insensitively (lowercasing both sides), false for every other
value; the start transition stores exactly that flag in the session; and
wherever the flag is later read from the session (Store.cacheOrTrue,
used at app.py lines 115 and 328) it defaults to true when the key is
absent. -/
theorem c10_cache_flag (q : List (String × String)) (b : Bool) (s : Store) :
    (startCacheFlag q = true ↔
      pyLower ((qget q "cache").getD "true") = pyLower "true") ∧
    (qget q "cache" = none → startCacheFlag q = true) ∧
    (Store.cacheOrTrue { s with cache := none } = true) ∧
    (Store.cacheOrTrue { s with cache := some b } = b) ∧
    (∀ (env : Env) (action : String) (sv : StoredVars) (dur : Option Int)
      (c : Bool),
      (redirect_to_idp env action sv dur c).cookieStore.map Store.cache =
        some (some c)) := by
  refine ⟨?_, ?_, rfl, rfl, ?_⟩
  · have hlow : pyLower "true" = "true" := rfl
    rw [hlow, startCacheFlag, beq_iff_eq]
  · intro h
    simp [startCacheFlag, h]
    decide
  · intro env action sv dur c
    simp [redirect_to_idp, applyStoredVars]

/-- Witness for C10 at concrete query strings: "TRUE" counts as true, an
absent parameter defaults to true, any other value is false, and a
session without the cache key reads as true. -/
theorem c10_witness :
    startCacheFlag [("cache", "TRUE")] = true ∧
    startCacheFlag [] = true ∧
    startCacheFlag [("cache", "false")] = false ∧
    Store.cacheOrTrue emptyStore = true :=
  ⟨(c10_cache_flag [("cache", "TRUE")] true emptyStore).1.mpr (by decide),
   (c10_cache_flag [] true emptyStore).2.1 rfl,
   by decide,
   (c10_cache_flag [] true emptyStore).2.2.1⟩
